import Mathlib

/-!
# Verification of `leetscrape.question` (class `GetQuestion`)

Shallow embedding of `src/leetscrape/question.py`.  The module has two
operations:

* `fetch_all_questions_id_and_stub` — the catalog index loader: one GET to the
  bulk listing endpoint, projected to (QID, titleSlug) pairs, sorted by QID,
  indexed by slug (a pandas `DataFrame.set_index`, which keeps duplicate
  labels).
* `scrape` — the detail fetcher: one POST per attempt, a retry loop on
  transient statuses with a fixed 10-second sleep, terminal 404, generic
  error-status and JSON-parse faults, then field extraction into a `Question`
  record (`_get_question_body`, `_get_code_snippet`,
  `_get_similar_questions`).

HTTP responses are modelled as records carrying the status code, the raw body
text, and the result of attempting to parse the body as the structured data
the code expects (`Option`, `none` meaning a `JSONDecodeError`).  Sleeping is
modelled by accumulating the total slept seconds.  Python exceptions become an
explicit `Fault` type whose constructors follow the spec's fault taxonomy and
whose payloads carry the exception messages built by the code.
-/

/-- One snippet from the `codeSnippets` field of the detail response. -/
structure CodeSnippet where
  lang : String
  langSlug : String
  code : String
  deriving Repr, DecidableEq

/-- One entry of the `companyTags` field of the detail response. -/
structure CompanyTag where
  name : String
  slug : String
  imgUrl : String
  deriving Repr, DecidableEq

/-- One entry of the `topicTags` field of the detail response. -/
structure TopicTag where
  name : String
  deriving Repr, DecidableEq

/-- One entry of the parsed `similarQuestions` payload.  In the upstream
response this is a JSON-encoded string; `_get_similar_questions` runs it
through `json.loads` and only ever reads the `titleSlug` key of each entry,
so the embedding models the parsed list and keeps just that key. -/
structure SimilarRef where
  titleSlug : String
  deriving Repr, DecidableEq

/-- The `data.question` object of a successfully parsed detail response
(the fields requested by the GraphQL query in `scrape`). -/
structure QuestionPayload where
  questionFrontendId : Nat
  title : String
  hints : List String
  difficulty : String
  companyTags : Option (List CompanyTag)
  topicTags : List TopicTag
  similarQuestions : List SimilarRef
  codeSnippets : List CodeSnippet
  content : String
  isPaidOnly : Bool
  deriving Repr, DecidableEq

/-- An HTTP response from the detail (GraphQL) endpoint: status code, raw
body text, and the body parsed as the expected structure (`none` models a
`requests.exceptions.JSONDecodeError` from `response.json()`). -/
structure DetailResponse where
  status_code : Nat
  text : String
  json : Option QuestionPayload
  deriving Repr, DecidableEq

/-- One record of the bulk listing's `stat_status_pairs` list, already
projected to the two nested fields the loader keeps:
`stat.frontend_question_id` (renamed `QID`) and `stat.question__title_slug`
(renamed `titleSlug`). -/
structure StatStatusPair where
  frontend_question_id : Nat
  question__title_slug : String
  deriving Repr, DecidableEq

/-- An HTTP response from the bulk listing endpoint
(`https://leetcode.com/api/problems/all/`): status code, raw body text, and
the parsed `stat_status_pairs` list (`none` models a `JSONDecodeError`). -/
structure CatalogResponse where
  status_code : Nat
  text : String
  json : Option (List StatStatusPair)
  deriving Repr, DecidableEq

/-- The faults the module can raise.  Constructor names follow the spec's
taxonomy; each carries the message (or key) of the Python exception:

* `transportFault` — `response.raise_for_status()` raising `HTTPError`;
* `malformedResponseFault` — the `ValueError` raised when `response.json()`
  fails, on either endpoint;
* `notFoundFault` — the `ValueError` raised on a 404 from the detail endpoint;
* `errorStatusFault` — the `ValueError` raised when the detail response is
  not ok and not in the handled status sets;
* `referenceResolutionFault` — the `KeyError` raised by
  `questions_info.loc[slug]` when the slug is absent from the index. -/
inductive Fault where
  | transportFault (status : Nat) : Fault
  | malformedResponseFault (msg : String) : Fault
  | notFoundFault (msg : String) : Fault
  | errorStatusFault (msg : String) : Fault
  | referenceResolutionFault (slug : String) : Fault
  deriving Repr, DecidableEq

deriving instance DecidableEq for Except

/-- Python's `text[:200]`: the first 200 characters of the response body,
modelled on the string's character list. -/
def truncate200 (s : String) : String := String.mk (s.data.take 200)

/-- The message of the `ValueError` raised when `response.json()` fails
(identical f-string at both call sites, lines 37-41 and 107-111). -/
def jsonParseErrorMsg (status : Nat) (snippet : String) : String :=
  "Failed to parse JSON response from LeetCode API. Status code: "
    ++ toString status ++ ". Response: " ++ snippet

/-- The message of the `ValueError` raised on a non-ok detail status outside
the handled sets (lines 99-102). -/
def errorStatusMsg (status : Nat) (snippet : String) : String :=
  "LeetCode API returned error status " ++ toString status
    ++ ". Response: " ++ snippet

/-- The message of the `ValueError` raised on a 404 from the detail
endpoint (lines 90 and 95). -/
def notFoundMsg : String := "Leetcode's graphql API can't be found."

/-- The placeholder body returned for paid-only questions (line 133). -/
def paidOnlyBody : String := "This questions is only for paid Leetcode subscribers."

/-- `requests.Response.ok`: true exactly when the status code is below 400. -/
def respOk (status : Nat) : Bool := status < 400

/-- The detail retry loop's transient status set (line 91):
`(429, 400, 500, 502, 503, 504)`. -/
def transientStatus (s : Nat) : Bool :=
  s == 429 || s == 400 || s == 500 || s == 502 || s == 503 || s == 504

/-- Comparison used to model `DataFrame.sort_values("QID")`: order the
projected pairs by their QID component.  `sort_values` guarantees the output
is a QID-sorted permutation of the rows; the embedding realizes it with
insertion sort (tie order among equal QIDs is not part of any claim). -/
def qidLE (a b : Nat × String) : Prop := a.1 ≤ b.1

instance : DecidableRel qidLE := fun a b => Nat.decLe a.1 b.1

instance : IsTotal (Nat × String) qidLE := ⟨fun a b => Nat.le_total a.1 b.1⟩

instance : IsTrans (Nat × String) qidLE := ⟨fun _ _ _ => Nat.le_trans⟩

/-- `GetQuestion.fetch_all_questions_id_and_stub` (lines 28-49):
`raise_for_status` on a bad status (≥ 400), `ValueError` with the status code
and the first 200 characters of the body when the body does not parse as
JSON, otherwise projection of `stat_status_pairs` to (QID, titleSlug) pairs
sorted by QID.  `set_index("titleSlug")` keeps every row (pandas retains
duplicate index labels), so the result is the full sorted list of pairs. -/
def fetch_all_questions_id_and_stub (resp : CatalogResponse) :
    Except Fault (List (Nat × String)) :=
  if 400 ≤ resp.status_code then
    Except.error (Fault.transportFault resp.status_code)
  else
    match resp.json with
    | none =>
        Except.error (Fault.malformedResponseFault
          (jsonParseErrorMsg resp.status_code (truncate200 resp.text)))
    | some pairs =>
        Except.ok (List.insertionSort qidLE (pairs.map
          (fun r => (r.frontend_question_id, r.question__title_slug))))

/-- The state of a `GetQuestion` instance: the target slug and the catalog
index loaded by the constructor (`self.titleSlug`, `self.questions_info`). -/
structure GetQuestion where
  titleSlug : String
  questions_info : List (Nat × String)
  deriving Repr, DecidableEq

/-- `GetQuestion.__init__` (lines 24-26): store the slug and eagerly load the
catalog index; a fault from the loader propagates. -/
def GetQuestion.init (titleSlug : String) (resp : CatalogResponse) :
    Except Fault GetQuestion :=
  match fetch_all_questions_id_and_stub resp with
  | Except.error f => Except.error f
  | Except.ok info => Except.ok ⟨titleSlug, info⟩

/-- Collaborator-owned constants and helper that are imported by
`question.py` but live outside it (`._constants.NO_PYTHON_STUB`,
`._constants.PREMIUM_CUSTOMER_PYTHON_STUB`, `._helper.camel_case`).  A format
string with a single `{}` placeholder is modelled as the function sending the
substituted argument to the formatted string; `camel_case` is an arbitrary
string transformation.  The embedding is parameterized over them, since the
code only applies them. -/
structure Collaborators where
  NO_PYTHON_STUB : String → String
  PREMIUM_CUSTOMER_PYTHON_STUB : String → String
  camel_case : String → String

/-- `GetQuestion._get_question_body` (lines 128-133). -/
def _get_question_body (p : QuestionPayload) : String :=
  if !p.isPaidOnly then p.content else paidOnlyBody

/-- `GetQuestion._get_code_snippet` (lines 149-170): for non-paid questions,
filter the snippets to `langSlug == "python3"` and return the first match's
code, falling back to `NO_PYTHON_STUB.format(camel_case(titleSlug))`; for
paid-only questions always return
`PREMIUM_CUSTOMER_PYTHON_STUB.format(camel_case(titleSlug))`. -/
def _get_code_snippet (coll : Collaborators) (titleSlug : String)
    (p : QuestionPayload) : String :=
  if !p.isPaidOnly then
    match p.codeSnippets.filter (fun c => c.langSlug == "python3") with
    | c :: _ => c.code
    | [] => coll.NO_PYTHON_STUB (coll.camel_case titleSlug)
  else coll.PREMIUM_CUSTOMER_PYTHON_STUB (coll.camel_case titleSlug)

/-- The value `questions_info.loc[slug].QID` evaluates to.  Pandas `.loc`
selects every index row whose label equals `slug`, in index order: a unique
label yields the row and `.QID` is the scalar QID; a duplicated label (which
the loader retains, see `fetch_all_questions_id_and_stub`) yields a
DataFrame of all matching rows and `.QID` is the Series of their QIDs. -/
inductive LocValue where
  | qid (n : Nat) : LocValue
  | series (ns : List Nat) : LocValue
  deriving Repr, DecidableEq

/-- The catalog lookup `questions_info.loc[slug].QID` (line 145): `none`
models the `KeyError` pandas raises for an absent label; otherwise the
scalar QID for a unique label, or the Series of every matching QID for a
duplicated one. -/
def locQID (info : List (Nat × String)) (slug : String) : Option LocValue :=
  match (info.filter (fun e => e.2 == slug)).map Prod.fst with
  | [] => none
  | [n] => some (LocValue.qid n)
  | ns => some (LocValue.series ns)

/-- `GetQuestion._get_similar_questions` (lines 136-146): walk the parsed
`similarQuestions` list in order, appending the value of
`questions_info.loc[entry.titleSlug].QID` for each entry; a slug absent from
the index makes the `.loc` lookup raise (`KeyError`), modelled as
`Fault.referenceResolutionFault` at the first absent slug. -/
def _get_similar_questions (info : List (Nat × String)) :
    List SimilarRef → Except Fault (List LocValue)
  | [] => Except.ok []
  | q :: qs =>
    match locQID info q.titleSlug with
    | none => Except.error (Fault.referenceResolutionFault q.titleSlug)
    | some v =>
      match _get_similar_questions info qs with
      | Except.error f => Except.error f
      | Except.ok rest => Except.ok (v :: rest)

/-- The record assembled by `scrape` (the `Question` model constructed at
lines 112-126; field names as passed there). -/
structure Question where
  QID : Nat
  title : String
  titleSlug : String
  difficulty : String
  Hints : List String
  Companies : Option (List CompanyTag)
  topics : List String
  isPaidOnly : Bool
  Body : String
  Code : String
  SimilarQuestions : List LocValue
  deriving Repr, DecidableEq

/-- The `Question(...)` construction at lines 112-126: every field is a
direct projection of the payload except `Body`, `Code` and
`SimilarQuestions`, which go through the three extraction helpers; a fault
from `_get_similar_questions` aborts the construction. -/
def buildQuestion (g : GetQuestion) (coll : Collaborators)
    (p : QuestionPayload) : Except Fault Question :=
  match _get_similar_questions g.questions_info p.similarQuestions with
  | Except.error f => Except.error f
  | Except.ok sim =>
    Except.ok
      { QID := p.questionFrontendId
        title := p.title
        titleSlug := g.titleSlug
        difficulty := p.difficulty
        Hints := p.hints
        Companies := p.companyTags
        topics := p.topicTags.map (fun t => t.name)
        isPaidOnly := p.isPaidOnly
        Body := _get_question_body p
        Code := _get_code_snippet coll g.titleSlug p
        SimilarQuestions := sim }

/-- Outcome of a run of `scrape` observed over a finite prefix of the
upstream's answers: `pending` means the retry loop consumed every answer in
the prefix and is still waiting on the next POST. -/
inductive ScrapeOutcome where
  | pending : ScrapeOutcome
  | fault (f : Fault) : ScrapeOutcome
  | ok (q : Question) : ScrapeOutcome
  deriving Repr, DecidableEq

/-- The body of `GetQuestion.scrape` (lines 88-126) over the sequence of
responses the detail endpoint returns to the successive POSTs, one response
per attempt, threading the total seconds slept so far.  Per response, in the
code's order: a 404 raises `notFoundFault` (lines 89-90 for the first
attempt, 94-95 inside the loop); a transient status sleeps 10 seconds and
re-sends (lines 91-93); a remaining non-ok status raises `errorStatusFault`
(lines 98-102); a body that fails to parse raises `malformedResponseFault`
(lines 104-111); otherwise the `Question` record is assembled. -/
def scrapeGo (g : GetQuestion) (coll : Collaborators) :
    List DetailResponse → Nat → ScrapeOutcome × Nat
  | [], slept => (ScrapeOutcome.pending, slept)
  | r :: rs, slept =>
    if r.status_code = 404 then
      (ScrapeOutcome.fault (Fault.notFoundFault notFoundMsg), slept)
    else if transientStatus r.status_code then
      scrapeGo g coll rs (slept + 10)
    else if !respOk r.status_code then
      (ScrapeOutcome.fault (Fault.errorStatusFault
        (errorStatusMsg r.status_code (truncate200 r.text))), slept)
    else
      match r.json with
      | none =>
          (ScrapeOutcome.fault (Fault.malformedResponseFault
            (jsonParseErrorMsg r.status_code (truncate200 r.text))), slept)
      | some p =>
          match buildQuestion g coll p with
          | Except.error f => (ScrapeOutcome.fault f, slept)
          | Except.ok q => (ScrapeOutcome.ok q, slept)

/-- `GetQuestion.scrape` as a method call: takes the instance state, returns
the (unchanged) instance state together with the outcome and total seconds
slept.  The method body never assigns to `self`, which the embedding makes
explicit by returning the state. -/
def scrape (g : GetQuestion) (coll : Collaborators) (rs : List DetailResponse) :
    GetQuestion × ScrapeOutcome × Nat :=
  (g, scrapeGo g coll rs 0)

/-- An end-to-end fetch: construct the `GetQuestion` for a slug against a
catalog response, then run `scrape` against the detail responses. -/
def fetchDetailRun (coll : Collaborators) (slug : String)
    (catalog : CatalogResponse) (rs : List DetailResponse) :
    Except Fault (ScrapeOutcome × Nat) :=
  match GetQuestion.init slug catalog with
  | Except.error f => Except.error f
  | Except.ok g => Except.ok (scrapeGo g coll rs 0)

/-! ## Helper lemmas and concrete fixtures -/

/-- A transient status is never 404, so the retry branch is unreachable for a
404 response. -/
theorem transientStatus_ne_404 {s : Nat} (h : transientStatus s = true) :
    s ≠ 404 := by
  intro he
  subst he
  exact absurd h (by decide)

/-- The `.loc` lookup succeeds exactly when the slug occurs in the index. -/
theorem locQID_isSome_iff (info : List (Nat × String)) (slug : String) :
    (locQID info slug).isSome = true ↔ slug ∈ info.map Prod.snd := by
  constructor
  · intro h
    by_contra habs
    have hfil : info.filter (fun e => e.2 == slug) = [] := by
      rw [List.filter_eq_nil_iff]
      intro e he
      simp only [beq_iff_eq]
      exact fun heq => habs (List.mem_map.2 ⟨e, he, heq⟩)
    simp [locQID, hfil] at h
  · intro h
    obtain ⟨e, he, heq⟩ := List.mem_map.1 h
    have hmem : e ∈ info.filter (fun x => x.2 == slug) :=
      List.mem_filter.2 ⟨he, by simp [heq]⟩
    rcases hfil : info.filter (fun x => x.2 == slug) with _ | ⟨a, as⟩
    · rw [hfil] at hmem
      exact absurd hmem (List.not_mem_nil e)
    · rcases as with _ | ⟨b, bs⟩ <;> simp [locQID, hfil]

/-- The label count of a slug in the index equals the matching-row count. -/
theorem count_map_snd (info : List (Nat × String)) (slug : String) :
    (info.map Prod.snd).count slug = (info.filter (fun e => e.2 == slug)).length := by
  induction info with
  | nil => rfl
  | cons e es ih =>
    by_cases he : e.2 = slug
    · simp [List.count_cons, List.filter_cons, he, ih]
    · simp [List.count_cons, List.filter_cons, he, ih]

/-- A slug whose label is unique in the index looks up to a scalar QID. -/
theorem locQID_of_count_one (info : List (Nat × String)) (slug : String)
    (h : (info.map Prod.snd).count slug = 1) :
    ∃ n, locQID info slug = some (LocValue.qid n) := by
  rw [count_map_snd] at h
  obtain ⟨e, he⟩ := List.length_eq_one.1 h
  exact ⟨e.1, by simp [locQID, he]⟩

/-- Concrete collaborator functions, used to evaluate the embedding on
closed inputs. -/
def collab0 : Collaborators where
  NO_PYTHON_STUB := fun name =>
    "class Solution:\n    def " ++ name ++ "(self) -> None:\n        pass"
  PREMIUM_CUSTOMER_PYTHON_STUB := fun name => "# premium question, stub for " ++ name
  camel_case := fun s => s

/-- A concrete paid-only detail payload that carries real content and a real
snippet upstream. -/
def paidPayload : QuestionPayload where
  questionFrontendId := 1768
  title := "Gated Question"
  hints := []
  difficulty := "Hard"
  companyTags := none
  topicTags := []
  similarQuestions := []
  codeSnippets := [⟨"Python3", "python3", "class RealPaidSnippet: ..."⟩]
  content := "real gated content"
  isPaidOnly := true

/-- A concrete free detail payload with a python3 snippet (after a cpp one),
two hints and one similar-question reference. -/
def freePayload : QuestionPayload where
  questionFrontendId := 1
  title := "Two Sum"
  hints := ["h1", "h2"]
  difficulty := "Easy"
  companyTags := none
  topicTags := [⟨"Array"⟩]
  similarQuestions := [⟨"add-two-numbers"⟩]
  codeSnippets :=
    [⟨"C++", "cpp", "// cpp stub"⟩,
     ⟨"Python3", "python3", "class Solution:\n    def twoSum(self): ..."⟩]
  content := "<p>Given an array...</p>"
  isPaidOnly := false

/-- `freePayload` with the python3 snippet removed. -/
def freePayloadNoStub : QuestionPayload :=
  { freePayload with
      codeSnippets := [⟨"C++", "cpp", "// cpp stub"⟩] }

/-! ## Claims -/

/-- C1 counterexample: against a catalog index that retains a duplicated
slug — which the loader produces, see `catalog_no_dedup_counterexample` — a
similar-questions payload referencing that slug resolves without fault, but
the value appended for it is the pandas Series of every matching QID, not a
numeric identifier, refuting the claimed ordered-list-of-identifiers
result. -/
theorem similar_resolution_counterexample :
    _get_similar_questions [(1, "alpha"), (2, "alpha")] [⟨"alpha"⟩] =
      Except.ok [LocValue.series [1, 2]]
    ∧ ∀ n : Nat, LocValue.series [1, 2] ≠ LocValue.qid n :=
  ⟨by decide, fun n h => LocValue.noConfusion h⟩

/-- C1 (amended): for a detail payload whose similar-questions entries all
reference slugs present in the catalog index, `_get_similar_questions`
raises no fault and returns the ordered list of their `.loc[slug].QID`
values; when each referenced slug is moreover unique in the index, that list
is the ordered list of their scalar numeric identifiers (a duplicated slug
contributes the Series of all matching QIDs instead).  If at least one
referenced slug is absent from the index, it raises the reference-resolution
fault. -/
theorem similar_resolution_spec (info : List (Nat × String))
    (refs : List SimilarRef) :
    ((∀ q ∈ refs, q.titleSlug ∈ info.map Prod.snd) →
      _get_similar_questions info refs =
        Except.ok (refs.filterMap (fun q => locQID info q.titleSlug)))
    ∧ ((∀ q ∈ refs, (info.map Prod.snd).count q.titleSlug = 1) →
      ∃ ids : List Nat, _get_similar_questions info refs =
          Except.ok (ids.map LocValue.qid)
        ∧ List.Forall₂ (fun (q : SimilarRef) (n : Nat) =>
            locQID info q.titleSlug = some (LocValue.qid n)) refs ids)
    ∧ ((∃ q ∈ refs, q.titleSlug ∉ info.map Prod.snd) →
      ∃ s, _get_similar_questions info refs =
        Except.error (Fault.referenceResolutionFault s)) := by
  induction refs with
  | nil =>
    exact ⟨fun _ => rfl, fun _ => ⟨[], rfl, List.Forall₂.nil⟩,
      fun ⟨q, hq, _⟩ => absurd hq (List.not_mem_nil q)⟩
  | cons q qs ih =>
    refine ⟨?_, ?_, ?_⟩
    · intro h
      have hq : (locQID info q.titleSlug).isSome = true :=
        (locQID_isSome_iff _ _).2 (h q (List.mem_cons_self _ _))
      obtain ⟨v, hv⟩ := Option.isSome_iff_exists.1 hq
      have ht := ih.1 (fun x hx => h x (List.mem_cons_of_mem _ hx))
      simp [_get_similar_questions, hv, ht]
    · intro h
      obtain ⟨n, hn⟩ := locQID_of_count_one info q.titleSlug
        (h q (List.mem_cons_self _ _))
      obtain ⟨ids, hids, hfa⟩ :=
        ih.2.1 (fun x hx => h x (List.mem_cons_of_mem _ hx))
      exact ⟨n :: ids, by simp [_get_similar_questions, hn, hids],
        List.Forall₂.cons hn hfa⟩
    · rintro ⟨x, hx, habs⟩
      rcases List.mem_cons.1 hx with rfl | hx'
      · have hnone : locQID info x.titleSlug = none := by
          rcases hl : locQID info x.titleSlug with _ | v
          · rfl
          · exact absurd ((locQID_isSome_iff _ _).1 (by simp [hl])) habs
        exact ⟨x.titleSlug, by simp [_get_similar_questions, hnone]⟩
      · rcases hl : locQID info q.titleSlug with _ | v
        · exact ⟨q.titleSlug, by simp [_get_similar_questions, hl]⟩
        · obtain ⟨s, hs⟩ := ih.2.2 ⟨x, hx', habs⟩
          exact ⟨s, by simp [_get_similar_questions, hl, hs]⟩

theorem similar_resolution_spec_witness :
    _get_similar_questions [(1, "two-sum"), (2, "add-two-numbers")]
        [⟨"add-two-numbers"⟩] = Except.ok [LocValue.qid 2]
    ∧ (∃ ids : List Nat,
        _get_similar_questions [(1, "two-sum"), (2, "add-two-numbers")]
            [⟨"add-two-numbers"⟩] = Except.ok (ids.map LocValue.qid)
        ∧ List.Forall₂ (fun (q : SimilarRef) (n : Nat) =>
            locQID [(1, "two-sum"), (2, "add-two-numbers")] q.titleSlug =
              some (LocValue.qid n)) [⟨"add-two-numbers"⟩] ids)
    ∧ ∃ s, _get_similar_questions [(1, "two-sum")] [⟨"lost-slug"⟩] =
        Except.error (Fault.referenceResolutionFault s) := by
  refine ⟨?_, ?_, ?_⟩
  · have h := (similar_resolution_spec [(1, "two-sum"), (2, "add-two-numbers")]
      [⟨"add-two-numbers"⟩]).1 (by decide)
    rw [h]
    decide
  · exact (similar_resolution_spec [(1, "two-sum"), (2, "add-two-numbers")]
      [⟨"add-two-numbers"⟩]).2.1 (by decide)
  · exact (similar_resolution_spec [(1, "two-sum")] [⟨"lost-slug"⟩]).2.2
      ⟨⟨"lost-slug"⟩, by decide, by decide⟩

/-- C2: for a paid-only detail payload, the extracted Body is the fixed
gated-content placeholder and the extracted Code is the premium placeholder
applied to the camel-cased slug, regardless of the upstream content and
snippets. -/
theorem paid_only_placeholders (coll : Collaborators) (slug : String)
    (p : QuestionPayload) (h : p.isPaidOnly = true) :
    _get_question_body p = paidOnlyBody
    ∧ _get_code_snippet coll slug p =
        coll.PREMIUM_CUSTOMER_PYTHON_STUB (coll.camel_case slug) := by
  constructor
  · simp [_get_question_body, h]
  · simp [_get_code_snippet, h]

theorem paid_only_placeholders_witness :
    _get_question_body paidPayload = paidOnlyBody
    ∧ _get_code_snippet collab0 "gated-q" paidPayload =
        collab0.PREMIUM_CUSTOMER_PYTHON_STUB (collab0.camel_case "gated-q") :=
  paid_only_placeholders collab0 "gated-q" paidPayload rfl

/-- C6: for a non-paid detail payload, if filtering the snippets to the
python3 language slug yields a first snippet then the extracted Code is that
snippet's code verbatim, and if it yields nothing then the extracted Code is
the no-stub placeholder applied to the camel-cased slug. -/
theorem free_code_snippet_spec (coll : Collaborators) (slug : String)
    (p : QuestionPayload) (h : p.isPaidOnly = false) :
    (∀ c rest, p.codeSnippets.filter (fun c => c.langSlug == "python3") = c :: rest →
      _get_code_snippet coll slug p = c.code)
    ∧ (p.codeSnippets.filter (fun c => c.langSlug == "python3") = [] →
      _get_code_snippet coll slug p = coll.NO_PYTHON_STUB (coll.camel_case slug)) := by
  constructor
  · intro c rest hc
    simp [_get_code_snippet, h, hc]
  · intro hc
    simp [_get_code_snippet, h, hc]

theorem free_code_snippet_spec_witness :
    _get_code_snippet collab0 "two-sum" freePayload =
      "class Solution:\n    def twoSum(self): ..."
    ∧ _get_code_snippet collab0 "two-sum" freePayloadNoStub =
      collab0.NO_PYTHON_STUB (collab0.camel_case "two-sum") := by
  constructor
  · exact (free_code_snippet_spec collab0 "two-sum" freePayload rfl).1
      ⟨"Python3", "python3", "class Solution:\n    def twoSum(self): ..."⟩ [] (by decide)
  · exact (free_code_snippet_spec collab0 "two-sum" freePayloadNoStub rfl).2 (by decide)

/-- C3 counterexample: on a catalog response containing two records with the
same slug, the loader keeps both rows (pandas `set_index` retains duplicate
index labels), so the returned mapping's slugs are not unique — refuting the
claimed last-write-wins deduplication by slug. -/
theorem catalog_no_dedup_counterexample :
    fetch_all_questions_id_and_stub ⟨200, "", some [⟨1, "alpha"⟩, ⟨2, "alpha"⟩]⟩ =
      Except.ok [(1, "alpha"), (2, "alpha")]
    ∧ ¬ List.Nodup ([(1, "alpha"), (2, "alpha")].map Prod.snd) := by
  decide

/-- C3 (amended): the catalog index loader projects each upstream record to
(identifier, slug) and returns the projected rows sorted by numeric
identifier ascending; every row is retained — duplicate slugs are not
deduplicated (the output is a permutation of the full projection). -/
theorem catalog_sorted_projection (resp : CatalogResponse)
    (pairs : List StatStatusPair)
    (hok : resp.status_code < 400) (hjson : resp.json = some pairs) :
    ∃ out, fetch_all_questions_id_and_stub resp = Except.ok out
      ∧ List.Sorted qidLE out
      ∧ List.Perm out (pairs.map (fun r => (r.frontend_question_id, r.question__title_slug))) := by
  have h1 : fetch_all_questions_id_and_stub resp =
      Except.ok (List.insertionSort qidLE
        (pairs.map (fun r => (r.frontend_question_id, r.question__title_slug)))) := by
    unfold fetch_all_questions_id_and_stub
    rw [if_neg (by omega), hjson]
  exact ⟨_, h1, List.sorted_insertionSort qidLE _, List.perm_insertionSort qidLE _⟩

theorem catalog_sorted_projection_witness :
    ∃ out, fetch_all_questions_id_and_stub ⟨200, "", some [⟨2, "b"⟩, ⟨1, "a"⟩]⟩ =
        Except.ok out
      ∧ List.Sorted qidLE out
      ∧ List.Perm out [(2, "b"), (1, "a")] :=
  catalog_sorted_projection ⟨200, "", some [⟨2, "b"⟩, ⟨1, "a"⟩]⟩
    [⟨2, "b"⟩, ⟨1, "a"⟩] (by decide) rfl

/-- C4: whenever the current detail response has a transient status
(429/400/500/502/503/504), `scrape` sleeps a fixed 10 seconds and re-sends
(consumes the next response); and on a response sequence consisting only of
transient statuses it neither returns nor raises within that sequence,
sleeping 10 seconds per attempt — no maximum retry count exists. -/
theorem transient_retry_spec (g : GetQuestion) (coll : Collaborators)
    (rs : List DetailResponse) (slept : Nat) :
    (∀ r rs', rs = r :: rs' → transientStatus r.status_code = true →
      scrapeGo g coll rs slept = scrapeGo g coll rs' (slept + 10))
    ∧ ((∀ x ∈ rs, transientStatus x.status_code = true) →
      scrapeGo g coll rs slept = (ScrapeOutcome.pending, slept + 10 * rs.length)) := by
  constructor
  · rintro r rs' rfl htr
    simp [scrapeGo, transientStatus_ne_404 htr, htr]
  · induction rs generalizing slept with
    | nil =>
      intro _
      simp [scrapeGo]
    | cons r rs ih =>
      intro h
      have htr := h r (List.mem_cons_self _ _)
      have hstep : scrapeGo g coll (r :: rs) slept = scrapeGo g coll rs (slept + 10) := by
        simp [scrapeGo, transientStatus_ne_404 htr, htr]
      rw [hstep, ih (slept + 10) (fun x hx => h x (List.mem_cons_of_mem _ hx))]
      simp [List.length_cons, Prod.mk.injEq]
      omega

theorem transient_retry_spec_witness :
    scrapeGo ⟨"two-sum", [(1, "two-sum")]⟩ collab0
      [⟨503, "", none⟩, ⟨429, "", none⟩] 0 = (ScrapeOutcome.pending, 20) := by
  have h := (transient_retry_spec ⟨"two-sum", [(1, "two-sum")]⟩ collab0
    [⟨503, "", none⟩, ⟨429, "", none⟩] 0).2 (by decide)
  rw [h]
  decide

/-- C5: a 404 detail response — on the first attempt or after any number of
transient retries — makes `scrape` raise the not-found fault immediately: no
sleep is added for it (the total slept time is exactly 10 seconds per
preceding transient response) and no later response is consumed. -/
theorem notFound_immediate_spec (g : GetQuestion) (coll : Collaborators)
    (pre : List DetailResponse) (r : DetailResponse) (rest : List DetailResponse)
    (slept : Nat)
    (hpre : ∀ x ∈ pre, transientStatus x.status_code = true)
    (h404 : r.status_code = 404) :
    scrapeGo g coll (pre ++ r :: rest) slept =
      (ScrapeOutcome.fault (Fault.notFoundFault notFoundMsg),
        slept + 10 * pre.length) := by
  induction pre generalizing slept with
  | nil =>
    simp [scrapeGo, h404]
  | cons x pre ih =>
    have htr := hpre x (List.mem_cons_self _ _)
    have hstep : scrapeGo g coll (x :: (pre ++ r :: rest)) slept =
        scrapeGo g coll (pre ++ r :: rest) (slept + 10) := by
      simp [scrapeGo, transientStatus_ne_404 htr, htr]
    rw [List.cons_append, hstep,
      ih (slept + 10) (fun y hy => hpre y (List.mem_cons_of_mem _ hy))]
    simp [List.length_cons, Prod.mk.injEq]
    omega

theorem notFound_immediate_spec_witness :
    scrapeGo ⟨"two-sum", [(1, "two-sum")]⟩ collab0
      [⟨503, "", none⟩, ⟨404, "gone", none⟩, ⟨200, "", none⟩] 0 =
      (ScrapeOutcome.fault (Fault.notFoundFault notFoundMsg), 10) := by
  have h := notFound_immediate_spec ⟨"two-sum", [(1, "two-sum")]⟩ collab0
    [⟨503, "", none⟩] ⟨404, "gone", none⟩ [⟨200, "", none⟩] 0 (by decide) rfl
  rw [List.cons_append, List.nil_append] at h
  rw [h]
  decide

/-- C7: the catalog index loader raises the transport fault whenever the bulk
listing call reports a non-success status (≥ 400), with no retry — the single
call either succeeds or faults; and when the status is successful but the
body does not parse as the expected structured data it raises the
malformed-response fault whose message carries the HTTP status code and the
first 200 characters of the raw body. -/
theorem catalog_loader_faults (resp : CatalogResponse) :
    (400 ≤ resp.status_code →
      fetch_all_questions_id_and_stub resp =
        Except.error (Fault.transportFault resp.status_code))
    ∧ (resp.status_code < 400 → resp.json = none →
      fetch_all_questions_id_and_stub resp =
        Except.error (Fault.malformedResponseFault
          (jsonParseErrorMsg resp.status_code (truncate200 resp.text)))) := by
  constructor
  · intro h
    unfold fetch_all_questions_id_and_stub
    rw [if_pos h]
  · intro h hj
    unfold fetch_all_questions_id_and_stub
    rw [if_neg (by omega), hj]

theorem catalog_loader_faults_witness :
    fetch_all_questions_id_and_stub ⟨500, "overloaded", some []⟩ =
      Except.error (Fault.transportFault 500)
    ∧ fetch_all_questions_id_and_stub ⟨200, "<html>not json</html>", none⟩ =
      Except.error (Fault.malformedResponseFault
        (jsonParseErrorMsg 200 "<html>not json</html>")) := by
  constructor
  · exact (catalog_loader_faults ⟨500, "overloaded", some []⟩).1 (by decide)
  · have h := (catalog_loader_faults ⟨200, "<html>not json</html>", none⟩).2
      (by decide) rfl
    rw [h]
    decide

/-- C8: a `scrape` call leaves the fetcher's state (target slug and catalog
index) unchanged, and it is all-or-nothing: when the response that exits the
retry loop is ok and parses but similar-question resolution faults, the call
produces that fault — the outcome carries no record, even though the body and
code extractions had values. -/
theorem all_or_nothing_spec (g : GetQuestion) (coll : Collaborators)
    (rs : List DetailResponse) :
    (scrape g coll rs).1 = g
    ∧ (∀ r rs' p f, rs = r :: rs' →
        transientStatus r.status_code = false →
        r.status_code < 400 →
        r.json = some p →
        _get_similar_questions g.questions_info p.similarQuestions = Except.error f →
        (scrape g coll rs).2.1 = ScrapeOutcome.fault f) := by
  refine ⟨rfl, ?_⟩
  rintro r rs' p f rfl htr hlt hj hsim
  have h404 : r.status_code ≠ 404 := by omega
  simp [scrape, scrapeGo, h404, htr, respOk, hlt, hj, buildQuestion, hsim]

/-- `freePayload` with its similar-question reference replaced by a slug
absent from every fixture catalog. -/
def unresolvedPayload : QuestionPayload :=
  { freePayload with similarQuestions := [⟨"lost-slug"⟩] }

theorem all_or_nothing_spec_witness :
    (scrape ⟨"two-sum", [(1, "two-sum")]⟩ collab0
        [⟨200, "", some unresolvedPayload⟩]).1 = ⟨"two-sum", [(1, "two-sum")]⟩
    ∧ (scrape ⟨"two-sum", [(1, "two-sum")]⟩ collab0
        [⟨200, "", some unresolvedPayload⟩]).2.1 =
      ScrapeOutcome.fault (Fault.referenceResolutionFault "lost-slug") := by
  have h := all_or_nothing_spec ⟨"two-sum", [(1, "two-sum")]⟩ collab0
    [⟨200, "", some unresolvedPayload⟩]
  exact ⟨h.1, h.2 ⟨200, "", some unresolvedPayload⟩ [] unresolvedPayload
    (Fault.referenceResolutionFault "lost-slug") rfl (by decide) (by decide) rfl
    (by decide)⟩

/-- C9: against one fixed upstream state (the same catalog response and the
same detail responses), two invocations of the fetch for the same slug that
return records return field-for-field identical records. -/
theorem fetch_idempotent (coll : Collaborators) (slug : String)
    (catalog : CatalogResponse) (rs : List DetailResponse)
    (q1 q2 : Question) (s1 s2 : Nat)
    (h1 : fetchDetailRun coll slug catalog rs = Except.ok (ScrapeOutcome.ok q1, s1))
    (h2 : fetchDetailRun coll slug catalog rs = Except.ok (ScrapeOutcome.ok q2, s2)) :
    q1.QID = q2.QID ∧ q1.title = q2.title ∧ q1.titleSlug = q2.titleSlug
    ∧ q1.difficulty = q2.difficulty ∧ q1.Hints = q2.Hints
    ∧ q1.Companies = q2.Companies ∧ q1.topics = q2.topics
    ∧ q1.isPaidOnly = q2.isPaidOnly ∧ q1.Body = q2.Body
    ∧ q1.Code = q2.Code ∧ q1.SimilarQuestions = q2.SimilarQuestions := by
  rw [h1] at h2
  simp only [Except.ok.injEq, Prod.mk.injEq, ScrapeOutcome.ok.injEq] at h2
  obtain ⟨rfl, rfl⟩ := h2
  exact ⟨rfl, rfl, rfl, rfl, rfl, rfl, rfl, rfl, rfl, rfl, rfl⟩

/-- The catalog response of the validation scenario: two problems, listed out
of QID order. -/
def catalogResp0 : CatalogResponse :=
  ⟨200, "", some [⟨2, "add-two-numbers"⟩, ⟨1, "two-sum"⟩]⟩

/-- The single successful detail response of the validation scenario. -/
def detailResps0 : List DetailResponse := [⟨200, "", some freePayload⟩]

/-- The record the validation scenario produces. -/
def question0 : Question where
  QID := 1
  title := "Two Sum"
  titleSlug := "two-sum"
  difficulty := "Easy"
  Hints := ["h1", "h2"]
  Companies := none
  topics := ["Array"]
  isPaidOnly := false
  Body := "<p>Given an array...</p>"
  Code := "class Solution:\n    def twoSum(self): ..."
  SimilarQuestions := [LocValue.qid 2]

theorem fetch_idempotent_witness :
    question0.QID = question0.QID ∧ question0.title = question0.title
    ∧ question0.titleSlug = question0.titleSlug
    ∧ question0.difficulty = question0.difficulty
    ∧ question0.Hints = question0.Hints
    ∧ question0.Companies = question0.Companies
    ∧ question0.topics = question0.topics
    ∧ question0.isPaidOnly = question0.isPaidOnly
    ∧ question0.Body = question0.Body ∧ question0.Code = question0.Code
    ∧ question0.SimilarQuestions = question0.SimilarQuestions :=
  fetch_idempotent collab0 "two-sum" catalogResp0 detailResps0
    question0 question0 0 0 (by decide) (by decide)

/-- C10: a detail response whose status is neither 404, nor transient, nor ok
(below 400) makes `scrape` raise, without sleeping or consuming further
responses and regardless of the response body, the error-status fault whose
message carries the status code and the first 200 characters of the raw
body. -/
theorem other_error_status_spec (g : GetQuestion) (coll : Collaborators)
    (r : DetailResponse) (rs : List DetailResponse) (slept : Nat)
    (h404 : r.status_code ≠ 404)
    (htr : transientStatus r.status_code = false)
    (hok : 400 ≤ r.status_code) :
    scrapeGo g coll (r :: rs) slept =
      (ScrapeOutcome.fault (Fault.errorStatusFault
        (errorStatusMsg r.status_code (truncate200 r.text))), slept) := by
  simp [scrapeGo, h404, htr, respOk, Nat.not_lt.2 hok]

theorem other_error_status_spec_witness :
    scrapeGo ⟨"two-sum", [(1, "two-sum")]⟩ collab0
      [⟨401, "Unauthorized", some freePayload⟩] 0 =
      (ScrapeOutcome.fault (Fault.errorStatusFault
        (errorStatusMsg 401 "Unauthorized")), 0) := by
  have h := other_error_status_spec ⟨"two-sum", [(1, "two-sum")]⟩ collab0
    ⟨401, "Unauthorized", some freePayload⟩ [] 0 (by decide) (by decide) (by decide)
  rw [h]
  decide
